import Mathlib

/-!
Shallow embedding of `create_fpga_project.py`: the configuration parser
(`parse_config`) and the two text generators (`generate_rtl_top`,
`generate_tb_top`).  Python strings are modelled as Lean `String`
(operating on `String.data`, the list of characters), Python `int` as
`Int`, and the `sys.exit` failure paths as an explicit `ConfigError`
sum returned through `Except`.
-/

/-- A parsed port record: one line of the `[port]` section
(`{"name": ..., "direction": ..., "width": ...}` in the source). -/
structure Port where
  name : String
  direction : String
  width : Int
deriving DecidableEq, Repr

/-- The value side of one entry of the `content` dictionary: a section
holds ordinary `key = value` pairs, and (for the `port` section) the
list stored under the `"ports"` key.  In the Python source both live in
one dict; the `"ports"` key is only ever created by the port branch and
ordinary keys only by the `=` branch, so the two fields never clash. -/
structure SectionData where
  kv : List (String × String)
  ports : Option (List Port)
deriving DecidableEq, Repr

/-- The fresh empty dict a section header binds its name to
(`content[current_section] = {}`). -/
def emptySectionData : SectionData := { kv := [], ports := none }

/-- Insertion-ordered dictionary update (`m[k] = f m.get(k)`): replaces
the value in place when the key exists, appends otherwise. -/
def updateAssoc (m : List (String × α)) (k : String) (f : Option α → α) :
    List (String × α) :=
  match m with
  | [] => [(k, f none)]
  | (k', v) :: rest =>
    if k' == k then (k, f (some v)) :: rest
    else (k', v) :: updateAssoc rest k f

/-- Dictionary lookup (`m.get(k)`). -/
def lookupAssoc (m : List (String × α)) (k : String) : Option α :=
  match m with
  | [] => none
  | (k', v) :: rest => if k' == k then some v else lookupAssoc rest k

/-- Models `str.strip()` on the character list: drop whitespace from both ends. -/
def stripChars (l : List Char) : List Char :=
  ((l.dropWhile Char.isWhitespace).reverse.dropWhile Char.isWhitespace).reverse

/-- Models `line.strip()`. -/
def pyStrip (s : String) : String := String.mk (stripChars s.data)

/-- Models `s.startswith(p)`. -/
def pyStartsWith (s p : String) : Bool := p.data.isPrefixOf s.data

/-- Models `s.endswith(p)`. -/
def pyEndsWith (s p : String) : Bool := p.data.isSuffixOf s.data

/-- Full split of a character list on one separator character; always
returns at least one (possibly empty) piece. -/
def splitAllChar (c : Char) : List Char → List (List Char)
  | [] => [[]]
  | a :: rest =>
    match splitAllChar c rest with
    | [] => [[]]
    | h :: t => if a == c then [] :: h :: t else (a :: h) :: t

/-- Re-join pieces with the separator character between them. -/
def joinSep (c : Char) : List (List Char) → List Char
  | [] => []
  | [x] => x
  | x :: y :: t => x ++ c :: joinSep c (y :: t)

/-- Models `re.split(":", line, maxsplit=2)`: split at the first two colons;
any remaining colons stay inside the third piece. -/
def splitMax2Colon (s : String) : List String :=
  match splitAllChar (':') s.data with
  | p0 :: p1 :: p2 :: rest =>
    [String.mk p0, String.mk p1, String.mk (joinSep (':') (p2 :: rest))]
  | l => l.map String.mk

/-- Models `line.split("=", 1)` followed by stripping both halves (the guard
`"=" in line` ensures the separator is present; the catch-all branch is
unreachable then). -/
def splitFirstEq (s : String) : String × String :=
  match splitAllChar ('=') s.data with
  | k :: r :: rest =>
    (pyStrip (String.mk k), pyStrip (String.mk (joinSep ('=') (r :: rest))))
  | _ => (pyStrip s, pyStrip (String.mk []))

/-- Decimal digit run to a number; `none` when empty or non-digit. -/
def digitsToNat? (l : List Char) : Option Nat :=
  if l.isEmpty then none
  else if l.all (fun c => c.isDigit) then
    some (l.foldl (fun a c => a * 10 + (c.toNat - ('0').toNat)) 0)
  else none

/-- Models `int(width_str)` on the already-stripped field: an optional sign
followed by decimal digits.  (The digit-group underscores of Python are
not modelled; no claim depends on them.) -/
def pyInt? (s : String) : Option Int :=
  match s.data with
  | [] => none
  | c :: rest =>
    if c == ('+') then (digitsToNat? rest).map Int.ofNat
    else if c == ('-') then (digitsToNat? rest).map (fun n => -(Int.ofNat n))
    else (digitsToNat? (c :: rest)).map Int.ofNat

/-- The `sys.exit` failure paths of `parse_config`, one constructor per
distinct diagnostic. -/
inductive ConfigError where
  | lineOutsideSection (lineNum : Nat)
  | malformedPortRecord (lineNum : Nat)
  | invalidWidth (lineNum : Nat)
  | invalidDirection (lineNum : Nat)
  | unparsableLine (lineNum : Nat)
  | sectionMissing (sec : String)
  | keyMissing (sec key : String)
  | invalidBoard
  | emptyPortList
deriving DecidableEq, Repr

/-- The loop state of `parse_config`: the `content` dict and
`current_section`. -/
structure PState where
  content : List (String × SectionData)
  current : Option String
deriving DecidableEq, Repr

/-- Models `content[cur]["ports"].append(p)`, creating the list when absent. -/
def appendPort (content : List (String × SectionData)) (cur : String)
    (p : Port) : List (String × SectionData) :=
  updateAssoc content cur (fun old =>
    match old with
    | some sec => { sec with ports := some (sec.ports.getD [] ++ [p]) }
    | none => { kv := [], ports := some [p] })

/-- Models `content[cur][key] = val`. -/
def setKV (content : List (String × SectionData)) (cur k v : String) :
    List (String × SectionData) :=
  updateAssoc content cur (fun old =>
    match old with
    | some sec => { sec with kv := updateAssoc sec.kv k (fun _ => v) }
    | none => { kv := [(k, v)], ports := none })

/-- One iteration of the `for line_num, line in enumerate(f, 1)` loop. -/
def processLine (st : PState) (lineNum : Nat) (raw : String) :
    Except ConfigError PState :=
  let line := pyStrip raw
  if line.data.isEmpty || pyStartsWith line ("#") then Except.ok st
  else if pyStartsWith line ("[") && pyEndsWith line ("]") then
    let sec := pyStrip (String.mk line.data.tail.dropLast)
    Except.ok { content := updateAssoc st.content sec (fun _ => emptySectionData),
                current := some sec }
  else
    match st.current with
    | none => Except.error (ConfigError.lineOutsideSection lineNum)
    | some cur =>
      if cur == ("port") then
        match (splitMax2Colon line).map pyStrip with
        | [nm, direction, widthStr] =>
          match pyInt? widthStr with
          | none => Except.error (ConfigError.invalidWidth lineNum)
          | some width =>
            if direction == ("input") || direction == ("output")
                || direction == ("inout") then
              Except.ok { st with
                content := appendPort st.content cur
                  { name := nm, direction := direction, width := width } }
            else Except.error (ConfigError.invalidDirection lineNum)
        | _ => Except.error (ConfigError.malformedPortRecord lineNum)
      else if line.data.contains ('=') then
        Except.ok { st with
          content := setKV st.content cur (splitFirstEq line).1 (splitFirstEq line).2 }
      else Except.error (ConfigError.unparsableLine lineNum)

/-- Run the line loop over the remaining lines, numbering from `n`. -/
def runLines : PState → Nat → List String → Except ConfigError PState
  | st, _, [] => Except.ok st
  | st, n, l :: ls =>
    match processLine st n l with
    | Except.ok st2 => runLines st2 (n + 1) ls
    | Except.error e => Except.error e

/-- The dictionary returned by `parse_config` on success. -/
structure ModuleDescriptor where
  project_name : String
  board : String
  top_module : String
  ports : List Port
deriving DecidableEq, Repr

/-- The post-loop validation of `parse_config`: required sections in
order, required keys, board whitelist, non-empty port list. -/
def validateContent (content : List (String × SectionData)) :
    Except ConfigError ModuleDescriptor :=
  match lookupAssoc content ("project") with
  | none => Except.error (ConfigError.sectionMissing ("project"))
  | some proj =>
    match lookupAssoc content ("module") with
    | none => Except.error (ConfigError.sectionMissing ("module"))
    | some md =>
      match lookupAssoc content ("port") with
      | none => Except.error (ConfigError.sectionMissing ("port"))
      | some portSec =>
        match lookupAssoc proj.kv ("name") with
        | none => Except.error (ConfigError.keyMissing ("project") ("name"))
        | some pname =>
          match lookupAssoc proj.kv ("board") with
          | none => Except.error (ConfigError.keyMissing ("project") ("board"))
          | some board =>
            if board == ("basys3") || board == ("nexys_a7") then
              match lookupAssoc md.kv ("name") with
              | none => Except.error (ConfigError.keyMissing ("module") ("name"))
              | some mname =>
                match portSec.ports with
                | some (p :: ps) =>
                  Except.ok { project_name := pname, board := board,
                              top_module := mname, ports := p :: ps }
                | _ => Except.error ConfigError.emptyPortList
            else Except.error ConfigError.invalidBoard

/-- The function `parse_config` over the decoded lines of the configuration file. -/
def parse_config (lines : List String) : Except ConfigError ModuleDescriptor :=
  match runLines { content := [], current := none } 1 lines with
  | Except.error e => Except.error e
  | Except.ok st => validateContent st.content

/-- The port list accumulated so far under the `port` section. -/
def portsOf (content : List (String × SectionData)) : List Port :=
  match lookupAssoc content ("port") with
  | some sec => sec.ports.getD []
  | none => []

/-- The current value of a key inside a named section. -/
def kvLookup (content : List (String × SectionData)) (sec k : String) :
    Option String :=
  match lookupAssoc content sec with
  | some sd => lookupAssoc sd.kv k
  | none => none

/-- The vector suffix of `generate_rtl_top`: empty unless the width
exceeds one. -/
def rtlVec (w : Int) : String :=
  if w > 1 then ("[") ++ toString (w - 1) ++ (":0]") else ("")

/-- Models `" " * (6 - len(direction))` (Python string repetition is empty for a
non-positive count, matching truncated `Nat` subtraction). -/
def dirSpacing (direction : String) : String :=
  String.mk (List.replicate (6 - direction.length) (' '))

/-- Models `port_decl(p)` inside `generate_rtl_top`. -/
def rtl_port_decl (p : Port) : String :=
  ("  ") ++ p.direction ++ dirSpacing p.direction ++ rtlVec p.width
    ++ (" ") ++ p.name

/-- The `all_decls` list of `generate_rtl_top`: extend with each
direction group (each `extend` guarded by the group being non-empty,
as in the source). -/
def rtl_all_decls (ports : List Port) : List String :=
  let input_ports := ports.filter (fun p => p.direction == ("input"))
  let output_ports := ports.filter (fun p => p.direction == ("output"))
  let inout_ports := ports.filter (fun p => p.direction == ("inout"))
  (if input_ports.isEmpty then [] else input_ports.map rtl_port_decl)
    ++ (if inout_ports.isEmpty then [] else inout_ports.map rtl_port_decl)
    ++ (if output_ports.isEmpty then [] else output_ports.map rtl_port_decl)

/-- The 66-character banner of equal signs in the stub body comment. -/
def eqBanner : String := String.mk (List.replicate 66 ('='))

/-- Models `generate_rtl_top(module_name, ports)`: the module stub text.  The
`textwrap.dedent` call is the identity here because the first template
line is flush left. -/
def generate_rtl_top (module_name : String) (ports : List Port) : String :=
  ("`default_nettype wire\n`timescale 1ns / 1ps\n\nmodule ") ++ module_name
    ++ (" (\n") ++ String.intercalate (",\n") (rtl_all_decls ports)
    ++ ("\n);\n\n  // ") ++ eqBanner
    ++ ("\n  // 📌 请在此处实例化你的子模块（如 PE 阵列、FIFO、控制器等）\n  // 示例：\n  //   my_pe_array u_pe (\n  //     .clk(clk),\n  //     .rst_n(rst_n),\n  //     .act_in(act_in_0),\n  //     ...\n  //   );\n  // ")
    ++ eqBanner
    ++ ("\n\n  // TODO: Replace this comment with your module instantiations or logic.\n\nendmodule\n")

/-- Models `has_clk`: a port named exactly `clk` with direction `input`. -/
def tb_has_clk (ports : List Port) : Bool :=
  ports.any (fun p => p.name == ("clk") && p.direction == ("input"))

/-- Models `has_rst_n`: a port named exactly `rst_n` with direction `input`. -/
def tb_has_rst_n (ports : List Port) : Bool :=
  ports.any (fun p => p.name == ("rst_n") && p.direction == ("input"))

/-- The vector suffix of `generate_tb_top` (with its trailing blank):
empty unless the width exceeds one. -/
def tbVec (w : Int) : String :=
  if w > 1 then ("[") ++ toString (w - 1) ++ (":0] ") else ("")

/-- One testbench declaration line: driving `reg` for inputs, `wire`
otherwise. -/
def tbDeclLine (p : Port) : String :=
  ("  ") ++ (if p.direction == ("input") then ("reg") else ("wire"))
    ++ (" ") ++ tbVec p.width ++ p.name ++ (";")

/-- Models `clk_logic`: the free-running clock process, emitted only when
`has_clk`. -/
def tbClkLogic (ports : List Port) : String :=
  if tb_has_clk ports then
    ("  initial begin clk = 0; forever #5 clk = ~clk; end\n")
  else ("")

/-- Models `rst_logic`: the one-shot reset process, emitted only when
`has_rst_n`. -/
def tbRstLogic (ports : List Port) : String :=
  if tb_has_rst_n ports then
    ("  initial begin rst_n = 0; #20 rst_n = 1; end\n")
  else ("")

/-- Models `port_inst`: the instance connection list, in file order. -/
def tbPortInst (ports : List Port) : String :=
  String.intercalate (",\n")
    (ports.map (fun p => ("    .") ++ p.name ++ ("(") ++ p.name ++ (")")))

/-- The `inputs` list feeding the stimulus block: `input` ports whose
name is not `clk` or `rst_n`. -/
def tbStimulusInputs (ports : List Port) : List Port :=
  ports.filter (fun p =>
    p.direction == ("input") && !(p.name == ("clk") || p.name == ("rst_n")))

/-- The apostrophe character of the Verilog sized-literal syntax. -/
def squote : String := String.singleton (Char.ofNat 39)

/-- Models `stimulus`: one sized zero assignment per non-clock non-reset input,
then the fixed `#100;` delay — or the empty string when there is no such
input. -/
def tbStimulus (ports : List Port) : String :=
  let inputs := tbStimulusInputs ports
  if inputs.isEmpty then ("")
  else
    String.intercalate ("\n")
      (inputs.map (fun p =>
        ("    ") ++ p.name ++ (" = ") ++ toString p.width ++ squote ++ ("d0;")))
      ++ ("\n    #100;")

/-- Models `generate_tb_top(module_name, ports)`: the testbench text (again
`textwrap.dedent` is the identity). -/
def generate_tb_top (module_name : String) (ports : List Port) : String :=
  ("`default_nettype wire\n`timescale 1ns / 1ps\nmodule tb_top;\n")
    ++ String.intercalate ("\n") (ports.map tbDeclLine)
    ++ ("\n\n") ++ tbClkLogic ports ++ ("\n") ++ tbRstLogic ports
    ++ ("\n  ") ++ module_name ++ (" dut (\n") ++ tbPortInst ports
    ++ ("\n  );\n\n  initial begin\n") ++ tbStimulus ports
    ++ ("\n    $display(\"okkk\");\n    $finish;\n  end\nendmodule\n")

/-- Substring test used to state facts about generated text. -/
def subListMem (pat : List Char) : List Char → Bool
  | [] => pat.isEmpty
  | a :: t => pat.isPrefixOf (a :: t) || subListMem pat t

/-- Models `pat in s` on strings. -/
def strContains (s pat : String) : Bool := subListMem pat.data s.data

/-- Updating a key and then looking it up yields the updated value,
whatever was bound before. -/
theorem lookupAssoc_updateAssoc_self {α} (m : List (String × α)) (k : String)
    (f : Option α → α) :
    lookupAssoc (updateAssoc m k f) k = some (f (lookupAssoc m k)) := by
  induction m with
  | nil => simp [lookupAssoc, updateAssoc]
  | cons hd tl ih =>
    obtain ⟨k', v⟩ := hd
    by_cases h : (k' == k) = true
    · simp [lookupAssoc, updateAssoc, h]
    · simp only [updateAssoc, lookupAssoc, h, Bool.false_eq_true, if_false, ih]

/-- An element a predicate rejects survives `dropWhile`. -/
theorem mem_dropWhile_of_neg {α} (p : α → Bool) (c : α) (hc : p c = false) :
    ∀ l : List α, c ∈ l → c ∈ l.dropWhile p := by
  intro l
  induction l with
  | nil => intro h; cases h
  | cons a t ih =>
    intro h
    by_cases ha : p a = true
    · rw [List.dropWhile_cons_of_pos ha]
      rcases List.mem_cons.mp h with rfl | h2
      · rw [hc] at ha; cases ha
      · exact ih h2
    · rw [List.dropWhile_cons_of_neg (by simpa using ha)]
      exact h

/-- Stripping removes only whitespace: a non-whitespace member stays. -/
theorem mem_stripChars (c : Char) (hc : c.isWhitespace = false)
    (l : List Char) (h : c ∈ l) : c ∈ stripChars l := by
  unfold stripChars
  rw [List.mem_reverse]
  apply mem_dropWhile_of_neg _ _ hc
  rw [List.mem_reverse]
  exact mem_dropWhile_of_neg _ _ hc _ h

/-- Joining at least two pieces reintroduces the separator. -/
theorem mem_joinSep (c : Char) (x y : List Char) (t : List (List Char)) :
    c ∈ joinSep c (x :: y :: t) := by
  show c ∈ x ++ c :: joinSep c (y :: t)
  exact List.mem_append_right _ (List.mem_cons_self _ _)

/-- A digit run containing a non-digit character never parses. -/
theorem digitsToNat?_eq_none (c : Char) (hc : c.isDigit = false)
    (l : List Char) (h : c ∈ l) : digitsToNat? l = none := by
  unfold digitsToNat?
  have hne : l.isEmpty = false := by cases l with
    | nil => cases h
    | cons a t => rfl
  rw [hne]
  have hall : l.all (fun c => c.isDigit) = false := by
    rcases hall : l.all (fun c => c.isDigit) with _ | _
    · rfl
    · have := List.all_eq_true.mp hall c h
      rw [hc] at this; cases this
  rw [hall]
  rfl

/-- Parsing via `int()` fails on any string containing a character that is neither
a digit nor a sign. -/
theorem pyInt?_eq_none (s : String) (c : Char) (h : c ∈ s.data)
    (hd : c.isDigit = false) (hp : (c == ('+')) = false)
    (hm : (c == ('-')) = false) : pyInt? s = none := by
  obtain ⟨data⟩ := s
  cases data with
  | nil => cases h
  | cons c0 rest =>
    show pyInt? (String.mk (c0 :: rest)) = none
    rcases List.mem_cons.mp h with rfl | hr
    · simp only [pyInt?, hp, hm, Bool.false_eq_true, if_false,
        digitsToNat?_eq_none c hd _ (List.mem_cons_self _ _), Option.map_none']
    · by_cases h0 : (c0 == ('+')) = true
      · simp only [pyInt?, h0, if_true, digitsToNat?_eq_none c hd _ hr,
          Option.map_none']
      · by_cases h1 : (c0 == ('-')) = true
        · simp only [pyInt?, h0, h1, Bool.false_eq_true, if_false, if_true,
            digitsToNat?_eq_none c hd _ hr, Option.map_none']
        · simp only [pyInt?, h0, h1, Bool.false_eq_true, if_false,
            digitsToNat?_eq_none c hd _ (List.mem_cons_of_mem _ hr),
            Option.map_none']

/-- The emptiness guards around `extend` are redundant. -/
theorem mapOrNil {α β} (f : α → β) (l : List α) :
    (if l.isEmpty then [] else l.map f) = l.map f := by
  cases l <;> rfl

/-- The section-header branch of `processLine`: a stripped line that is
non-empty, not a comment and bracketed on both sides rebinds its trimmed
interior to a fresh empty section and makes it current. -/
theorem processLine_header (st : PState) (n : Nat) (l : String)
    (h1 : ((pyStrip l).data.isEmpty || pyStartsWith (pyStrip l) ("#")) = false)
    (h2 : (pyStartsWith (pyStrip l) ("[") && pyEndsWith (pyStrip l) ("]")) = true) :
    processLine st n l = Except.ok
      { content := updateAssoc st.content
          (pyStrip (String.mk (pyStrip l).data.tail.dropLast))
          (fun _ => emptySectionData),
        current := some (pyStrip (String.mk (pyStrip l).data.tail.dropLast)) } := by
  unfold processLine
  simp only [h1, h2, Bool.false_eq_true, if_false, if_true]

/-- Inside the `port` section, `processLine` is the port-record branch. -/
theorem processLine_port (st : PState) (n : Nat) (l : String)
    (h1 : ((pyStrip l).data.isEmpty || pyStartsWith (pyStrip l) ("#")) = false)
    (h2 : (pyStartsWith (pyStrip l) ("[") && pyEndsWith (pyStrip l) ("]")) = false)
    (hcur : st.current = some ("port")) :
    processLine st n l =
      (match (splitMax2Colon (pyStrip l)).map pyStrip with
       | [nm, direction, widthStr] =>
         match pyInt? widthStr with
         | none => Except.error (ConfigError.invalidWidth n)
         | some width =>
           if direction == ("input") || direction == ("output")
               || direction == ("inout") then
             Except.ok
               { st with
                 content := appendPort st.content ("port") (Port.mk nm direction width) }
           else Except.error (ConfigError.invalidDirection n)
       | _ => Except.error (ConfigError.malformedPortRecord n)) := by
  unfold processLine
  simp only [h1, h2, Bool.false_eq_true, if_false, hcur]
  rfl

/-- A well-formed port line is appended, whatever integer the width
field holds. -/
theorem processLine_port_append (st : PState) (n : Nat) (l : String)
    (nm d ws : String) (w : Int)
    (h1 : ((pyStrip l).data.isEmpty || pyStartsWith (pyStrip l) ("#")) = false)
    (h2 : (pyStartsWith (pyStrip l) ("[") && pyEndsWith (pyStrip l) ("]")) = false)
    (hcur : st.current = some ("port"))
    (hsplit : (splitMax2Colon (pyStrip l)).map pyStrip = [nm, d, ws])
    (hint : pyInt? ws = some w)
    (hdir : (d == ("input") || d == ("output") || d == ("inout")) = true) :
    processLine st n l = Except.ok
      { st with content := appendPort st.content ("port") (Port.mk nm d w) } := by
  rw [processLine_port st n l h1 h2 hcur, hsplit]
  simp only [hint, hdir, if_true]

/-- The accumulated port list after `appendPort` is the old list with
the new record at the end. -/
theorem portsOf_appendPort (content : List (String × SectionData)) (p : Port) :
    portsOf (appendPort content ("port") p) = portsOf content ++ [p] := by
  unfold portsOf appendPort
  rw [lookupAssoc_updateAssoc_self]
  cases h : lookupAssoc content ("port") with
  | none => rfl
  | some sec => cases sec.ports <;> rfl

/-- Re-setting a key inside a section makes the new value the one a
later lookup sees. -/
theorem kvLookup_setKV (content : List (String × SectionData))
    (cur k v : String) :
    kvLookup (setKV content cur k v) cur k = some v := by
  unfold kvLookup setKV
  rw [lookupAssoc_updateAssoc_self]
  cases h : lookupAssoc content cur with
  | none => simp [lookupAssoc]
  | some sec => simp [lookupAssoc_updateAssoc_self]

/-- C9: any stripped, non-empty, non-comment line that starts with `[`
and ends with `]` is handled by the section-header branch regardless of
the current section (in particular inside `port`, and whatever brackets
the interior contains): the trimmed interior becomes the current
section, bound to a fresh empty mapping, and the line is never parsed
as a port record or a key/value pair. -/
theorem c9_section_header (st : PState) (n : Nat) (l : String)
    (h1 : ((pyStrip l).data.isEmpty || pyStartsWith (pyStrip l) ("#")) = false)
    (h2 : (pyStartsWith (pyStrip l) ("[") && pyEndsWith (pyStrip l) ("]")) = true) :
    processLine st n l = Except.ok
      { content := updateAssoc st.content
          (pyStrip (String.mk (pyStrip l).data.tail.dropLast))
          (fun _ => emptySectionData),
        current := some (pyStrip (String.mk (pyStrip l).data.tail.dropLast)) } :=
  processLine_header st n l h1 h2

/-- C9 witness: inside the `port` section, the line `[ tag [2] ]` is a
header for the section `tag [2]` (interior brackets included), not a
port record. -/
theorem c9_section_header_witness :
    processLine
      (PState.mk [(("port"), SectionData.mk [] (some [Port.mk ("x") ("input") 1]))]
        (some ("port")))
      3 (" [ tag [2] ] ") =
    Except.ok
      (PState.mk
        [(("port"), SectionData.mk [] (some [Port.mk ("x") ("input") 1])),
         (("tag [2]"), SectionData.mk [] none)]
        (some ("tag [2]"))) := by
  rw [c9_section_header _ 3 _ (by decide) (by decide)]
  rfl

/-- C4 counterexample: the claim says port records parsed under an
earlier occurrence of a repeated section name are still present in the
assembled document; in the code a repeated `[port]` header rebinds the
name to a fresh empty dict, so the earlier record `a` is gone and only
`b` survives. -/
theorem c4_counterexample :
    parse_config (["[project]", "name = p", "board = basys3", "[module]",
        "name = m", "[port]", "a : input : 1", "[port]", "b : input : 1"]) =
      Except.ok
        (ModuleDescriptor.mk ("p") ("basys3") ("m") [Port.mk ("b") ("input") 1]) ∧
    (ModuleDescriptor.mk ("p") ("basys3") ("m")
        [Port.mk ("b") ("input") 1]).ports.map Port.name = [("b")] :=
  ⟨rfl, rfl⟩

/-- C4 amended: a later section header with an already-seen name does
not continue the earlier mapping — it rebinds the name to a fresh empty
mapping, discarding every entry accumulated under the earlier
occurrence. -/
theorem c4_header_resets_section (st : PState) (n : Nat) (l : String)
    (sd : SectionData)
    (h1 : ((pyStrip l).data.isEmpty || pyStartsWith (pyStrip l) ("#")) = false)
    (h2 : (pyStartsWith (pyStrip l) ("[") && pyEndsWith (pyStrip l) ("]")) = true)
    (hprev : lookupAssoc st.content
      (pyStrip (String.mk (pyStrip l).data.tail.dropLast)) = some sd) :
    processLine st n l = Except.ok
      { content := updateAssoc st.content
          (pyStrip (String.mk (pyStrip l).data.tail.dropLast))
          (fun _ => emptySectionData),
        current := some (pyStrip (String.mk (pyStrip l).data.tail.dropLast)) } ∧
    lookupAssoc
      (updateAssoc st.content
        (pyStrip (String.mk (pyStrip l).data.tail.dropLast))
        (fun _ => emptySectionData))
      (pyStrip (String.mk (pyStrip l).data.tail.dropLast)) =
      some emptySectionData := by
  refine ⟨processLine_header st n l h1 h2, ?_⟩
  rw [lookupAssoc_updateAssoc_self]

/-- C4 witness: a second `[port]` header wipes the port list parsed
under the first one. -/
theorem c4_header_resets_section_witness :
    processLine
      (PState.mk [(("port"), SectionData.mk [] (some [Port.mk ("a") ("input") 1]))]
        (some ("port")))
      4 ("[port]") =
    Except.ok
      (PState.mk [(("port"), SectionData.mk [] none)] (some ("port"))) ∧
    lookupAssoc
      (PState.mk [(("port"), SectionData.mk [] none)] (some ("port"))).content
      ("port") = some emptySectionData := by
  have h := c4_header_resets_section
    (PState.mk [(("port"), SectionData.mk [] (some [Port.mk ("a") ("input") 1]))]
      (some ("port")))
    4 ("[port]") (SectionData.mk [] (some [Port.mk ("a") ("input") 1]))
    (by decide) (by decide) (by decide)
  exact ⟨h.1, h.2⟩

/-- C10: inside a non-`port` section, a line containing `=` is accepted
without error and rebinds its key, so when a key appears on several
lines the value from the last processed occurrence is what a lookup of
the assembled document returns — whatever value (if any) the key held
before. -/
theorem c10_duplicate_key_overwrite (st : PState) (n : Nat) (l cur : String)
    (h1 : ((pyStrip l).data.isEmpty || pyStartsWith (pyStrip l) ("#")) = false)
    (h2 : (pyStartsWith (pyStrip l) ("[") && pyEndsWith (pyStrip l) ("]")) = false)
    (hcur : st.current = some cur)
    (hport : (cur == ("port")) = false)
    (heq : (pyStrip l).data.contains ('=') = true) :
    processLine st n l = Except.ok
      { st with
        content :=
          setKV st.content cur (splitFirstEq (pyStrip l)).1 (splitFirstEq (pyStrip l)).2 } ∧
    kvLookup
      (setKV st.content cur (splitFirstEq (pyStrip l)).1
        (splitFirstEq (pyStrip l)).2)
      cur ((splitFirstEq (pyStrip l)).1) = some ((splitFirstEq (pyStrip l)).2) := by
  constructor
  · unfold processLine
    simp only [h1, h2, Bool.false_eq_true, if_false, hcur, hport, heq, if_true]
  · exact kvLookup_setKV _ _ _ _

/-- C10 witness: with `name` already bound to `old` in section
`project`, the line `name = new` is accepted and the lookup afterwards
returns `new`. -/
theorem c10_duplicate_key_overwrite_witness :
    processLine
      (PState.mk [(("project"), SectionData.mk [(("name"), ("old"))] none)]
        (some ("project")))
      5 ("name = new") =
    Except.ok
      (PState.mk [(("project"), SectionData.mk [(("name"), ("new"))] none)]
        (some ("project"))) ∧
    kvLookup
      (PState.mk [(("project"), SectionData.mk [(("name"), ("new"))] none)]
        (some ("project"))).content
      ("project") ("name") = some ("new") := by
  have h := c10_duplicate_key_overwrite
    (PState.mk [(("project"), SectionData.mk [(("name"), ("old"))] none)]
      (some ("project")))
    5 ("name = new") ("project")
    (by decide) (by decide) rfl (by decide) (by decide)
  exact ⟨h.1, h.2⟩

/-- C2 counterexample: the claim says every successfully parsed
configuration yields only widths `≥ 1`, and that a zero width triggers
`InvalidWidth`; the code only checks that the field parses as an
integer, so a `width 0` record parses successfully and keeps width 0. -/
theorem c2_counterexample :
    parse_config (["[project]", "name = p", "board = basys3", "[module]",
        "name = m", "[port]", "a : input : 0"]) =
      Except.ok
        (ModuleDescriptor.mk ("p") ("basys3") ("m") [Port.mk ("a") ("input") 0]) ∧
    ¬(1 ≤ (Port.mk ("a") ("input") 0).width) :=
  ⟨rfl, by decide⟩

/-- C2 amended: the width field is only required to parse as an
integer; any integer — including zero and negative values — is
accepted and appended unchanged (there is no `InvalidWidth` failure for
non-positive widths, only for non-integer fields). -/
theorem c2_width_unchecked (st : PState) (n : Nat) (l nm d ws : String)
    (w : Int)
    (h1 : ((pyStrip l).data.isEmpty || pyStartsWith (pyStrip l) ("#")) = false)
    (h2 : (pyStartsWith (pyStrip l) ("[") && pyEndsWith (pyStrip l) ("]")) = false)
    (hcur : st.current = some ("port"))
    (hsplit : (splitMax2Colon (pyStrip l)).map pyStrip = [nm, d, ws])
    (hint : pyInt? ws = some w)
    (hdir : (d == ("input") || d == ("output") || d == ("inout")) = true) :
    processLine st n l = Except.ok
      { st with content := appendPort st.content ("port") (Port.mk nm d w) } ∧
    portsOf (appendPort st.content ("port") (Port.mk nm d w)) =
      portsOf st.content ++ [Port.mk nm d w] :=
  ⟨processLine_port_append st n l nm d ws w h1 h2 hcur hsplit hint hdir,
   portsOf_appendPort st.content (Port.mk nm d w)⟩

/-- C2 witness: the record `w : input : -3` is accepted and appended
with width `-3`. -/
theorem c2_width_unchecked_witness :
    processLine (PState.mk [(("port"), SectionData.mk [] none)] (some ("port")))
      4 ("w : input : -3") =
    Except.ok
      (PState.mk [(("port"), SectionData.mk [] (some [Port.mk ("w") ("input") (-3)]))]
        (some ("port"))) ∧
    portsOf
      (PState.mk [(("port"), SectionData.mk [] (some [Port.mk ("w") ("input") (-3)]))]
        (some ("port"))).content = [Port.mk ("w") ("input") (-3)] := by
  have h := c2_width_unchecked
    (PState.mk [(("port"), SectionData.mk [] none)] (some ("port")))
    4 ("w : input : -3") ("w") ("input") ("-3") (-3)
    (by decide) (by decide) rfl (by decide) (by decide) (by decide)
  exact ⟨h.1, h.2⟩

/-- C3 counterexample: the claim says a `port` section with two records
of the same name does not parse; the code performs no uniqueness check,
so the configuration parses and the name `a` occurs twice. -/
theorem c3_counterexample :
    parse_config (["[project]", "name = p", "board = basys3", "[module]",
        "name = m", "[port]", "a : input : 1", "a : output : 2"]) =
      Except.ok
        (ModuleDescriptor.mk ("p") ("basys3") ("m")
          [Port.mk ("a") ("input") 1, Port.mk ("a") ("output") 2]) ∧
    ¬([Port.mk ("a") ("input") 1, Port.mk ("a") ("output") 2].map Port.name).Nodup :=
  ⟨rfl, by decide⟩

/-- C3 amended: port names are never checked for uniqueness — a valid
record whose name is already present in the accumulated port list is
accepted and appended all the same, so the final list keeps duplicates
in file order. -/
theorem c3_duplicate_name_accepted (st : PState) (n : Nat) (l nm d ws : String)
    (w : Int)
    (h1 : ((pyStrip l).data.isEmpty || pyStartsWith (pyStrip l) ("#")) = false)
    (h2 : (pyStartsWith (pyStrip l) ("[") && pyEndsWith (pyStrip l) ("]")) = false)
    (hcur : st.current = some ("port"))
    (hsplit : (splitMax2Colon (pyStrip l)).map pyStrip = [nm, d, ws])
    (hint : pyInt? ws = some w)
    (hdir : (d == ("input") || d == ("output") || d == ("inout")) = true)
    (hdup : nm ∈ (portsOf st.content).map Port.name) :
    processLine st n l = Except.ok
      { st with content := appendPort st.content ("port") (Port.mk nm d w) } ∧
    portsOf (appendPort st.content ("port") (Port.mk nm d w)) =
      portsOf st.content ++ [Port.mk nm d w] :=
  ⟨processLine_port_append st n l nm d ws w h1 h2 hcur hsplit hint hdir,
   portsOf_appendPort st.content (Port.mk nm d w)⟩

/-- C3 witness: with a port `a` already parsed, the line
`a : output : 2` is accepted and appended, leaving two ports named
`a`. -/
theorem c3_duplicate_name_accepted_witness :
    processLine
      (PState.mk [(("port"), SectionData.mk [] (some [Port.mk ("a") ("input") 1]))]
        (some ("port")))
      8 ("a : output : 2") =
    Except.ok
      (PState.mk
        [(("port"),
          SectionData.mk []
            (some [Port.mk ("a") ("input") 1, Port.mk ("a") ("output") 2]))]
        (some ("port"))) ∧
    portsOf
      (PState.mk
        [(("port"),
          SectionData.mk []
            (some [Port.mk ("a") ("input") 1, Port.mk ("a") ("output") 2]))]
        (some ("port"))).content =
      [Port.mk ("a") ("input") 1] ++ [Port.mk ("a") ("output") 2] := by
  have h := c3_duplicate_name_accepted
    (PState.mk [(("port"), SectionData.mk [] (some [Port.mk ("a") ("input") 1]))]
      (some ("port")))
    8 ("a : output : 2") ("a") ("output") ("2") 2
    (by decide) (by decide) rfl (by decide) (by decide) (by decide) (by decide)
  exact ⟨h.1, h.2⟩

/-- C1 counterexample: the claim says a port line with more than two
colons fails with `MalformedPortRecord`; on `a : input : 1 : 2` (three
colons) the code splits at the first two colons only, so the width
field `1 : 2` fails integer parsing and the error is `InvalidWidth`. -/
theorem c1_counterexample :
    parse_config (["[port]", "a : input : 1 : 2"]) =
      Except.error (ConfigError.invalidWidth 2) ∧
    ConfigError.invalidWidth 2 ≠ ConfigError.malformedPortRecord 2 :=
  ⟨rfl, by decide⟩

/-- C1 amended: a port line with fewer than two colons (one or two
colon-separated pieces) fails with `MalformedPortRecord` carrying the
line number; a line with more than two colons is split at the first two
colons only, the extra colons stay inside the width field, and the line
fails with `InvalidWidth` carrying the line number (a field containing
a colon never parses as an integer). -/
theorem c1_colon_count (st : PState) (n : Nat) (l : String)
    (h1 : ((pyStrip l).data.isEmpty || pyStartsWith (pyStrip l) ("#")) = false)
    (h2 : (pyStartsWith (pyStrip l) ("[") && pyEndsWith (pyStrip l) ("]")) = false)
    (hcur : st.current = some ("port")) :
    (∀ p0, splitAllChar (':') (pyStrip l).data = [p0] →
      processLine st n l = Except.error (ConfigError.malformedPortRecord n)) ∧
    (∀ p0 p1, splitAllChar (':') (pyStrip l).data = [p0, p1] →
      processLine st n l = Except.error (ConfigError.malformedPortRecord n)) ∧
    (∀ p0 p1 p2 p3 rest,
      splitAllChar (':') (pyStrip l).data = p0 :: p1 :: p2 :: p3 :: rest →
      processLine st n l = Except.error (ConfigError.invalidWidth n)) := by
  refine ⟨?_, ?_, ?_⟩
  · intro p0 hs
    rw [processLine_port st n l h1 h2 hcur]
    unfold splitMax2Colon
    rw [hs]
    rfl
  · intro p0 p1 hs
    rw [processLine_port st n l h1 h2 hcur]
    unfold splitMax2Colon
    rw [hs]
    rfl
  · intro p0 p1 p2 p3 rest hs
    rw [processLine_port st n l h1 h2 hcur]
    unfold splitMax2Colon
    rw [hs]
    have hnone : pyInt? (pyStrip (String.mk (joinSep (':') (p2 :: p3 :: rest)))) = none := by
      refine pyInt?_eq_none _ (':') ?_ (by decide) (by decide) (by decide)
      exact mem_stripChars _ (by decide) _ (mem_joinSep _ _ _ _)
    simp only [List.map_cons, List.map_nil, hnone]

/-- C1 witness: on the three-colon line `a : input : 1 : 2` the port
branch reports `InvalidWidth` for that line, not
`MalformedPortRecord`. -/
theorem c1_colon_count_witness :
    processLine (PState.mk [(("port"), SectionData.mk [] none)] (some ("port")))
      2 ("a : input : 1 : 2") =
    Except.error (ConfigError.invalidWidth 2) :=
  (c1_colon_count (PState.mk [(("port"), SectionData.mk [] none)] (some ("port")))
      2 ("a : input : 1 : 2") (by decide) (by decide) rfl).2.2
    (['a', ' ']) ([' ', 'i', 'n', 'p', 'u', 't', ' ']) ([' ', '1', ' '])
    ([' ', '2']) ([]) (by decide)

/-- C5 counterexample: the claim says that with no (non-clock,
non-reset) inputs the stimulus block still contains the fixed `#100`
delay; in the code the stimulus string is empty then, and the generated
testbench contains no `#100` at all. -/
theorem c5_counterexample :
    tbStimulus ([Port.mk ("q") ("output") 8]) = ("") ∧
    strContains (generate_tb_top ("m") ([Port.mk ("q") ("output") 8])) ("#100")
      = false :=
  ⟨rfl, by decide⟩

/-- C5 amended: when the port list has no `input` port other than
`clk`/`rst_n`, the stimulus block is completely empty — no zero
assignments and no `#100` delay either — while the completion message
and the stop directive are still emitted. -/
theorem c5_empty_stimulus (module_name : String) (ports : List Port)
    (h : (tbStimulusInputs ports).isEmpty = true) :
    tbStimulus ports = ("") ∧
    (∃ a, generate_tb_top module_name ports =
      a ++ ("\n    $display(\"okkk\");\n    $finish;\n  end\nendmodule\n")) := by
  constructor
  · simp only [tbStimulus, h, if_true]
  · exact ⟨_, rfl⟩

/-- C5 witness: a port list whose only input is `clk` gets an empty
stimulus block followed directly by the completion message and stop
directive. -/
theorem c5_empty_stimulus_witness :
    tbStimulus ([Port.mk ("clk") ("input") 1]) = ("") ∧
    (∃ a, generate_tb_top ("m") ([Port.mk ("clk") ("input") 1]) =
      a ++ ("\n    $display(\"okkk\");\n    $finish;\n  end\nendmodule\n")) :=
  c5_empty_stimulus ("m") ([Port.mk ("clk") ("input") 1]) (by decide)

/-- C6: the declaration block of the module stub lists the ports
grouped by direction — inputs, then inouts, then outputs, each group a
filter of the original list (so relative file order is preserved inside
each group) — and, provided every direction is one of the three
recognized values, that grouped list is a permutation of the original
port list (every port appears exactly once). -/
theorem c6_module_stub_grouping (ports : List Port)
    (h : ∀ p ∈ ports, p.direction = ("input") ∨ p.direction = ("output")
      ∨ p.direction = ("inout")) :
    rtl_all_decls ports =
      (ports.filter (fun p => p.direction == ("input"))
        ++ ports.filter (fun p => p.direction == ("inout"))
        ++ ports.filter (fun p => p.direction == ("output"))).map rtl_port_decl ∧
    (ports.filter (fun p => p.direction == ("input"))
      ++ ports.filter (fun p => p.direction == ("inout"))
      ++ ports.filter (fun p => p.direction == ("output"))).Perm ports := by
  constructor
  · unfold rtl_all_decls
    simp only [mapOrNil, List.map_append]
  · have h1 := List.filter_append_perm
      (fun p : Port => p.direction == ("input")) ports
    have h2 := List.filter_append_perm (fun p : Port => p.direction == ("inout"))
      (ports.filter (fun p : Port => !(p.direction == ("input"))))
    have e1 : (ports.filter (fun p : Port => !(p.direction == ("input")))).filter
        (fun p : Port => p.direction == ("inout")) =
        ports.filter (fun p => p.direction == ("inout")) := by
      rw [List.filter_filter]
      apply List.filter_congr
      intro p hp
      by_cases hio : p.direction = ("inout")
      · rw [hio]; rfl
      · have hf : (p.direction == ("inout")) = false := beq_eq_false_iff_ne.mpr hio
        rw [hf]; rfl
    have e2 : (ports.filter (fun p : Port => !(p.direction == ("input")))).filter
        (fun p : Port => !(p.direction == ("inout"))) =
        ports.filter (fun p => p.direction == ("output")) := by
      rw [List.filter_filter]
      apply List.filter_congr
      intro p hp
      rcases h p hp with hd | hd | hd <;> rw [hd] <;> rfl
    rw [List.append_assoc, ← e1, ← e2]
    exact (List.Perm.append_left _ h2).trans h1

/-- C6 witness: on a mixed four-port list the grouped declaration order
is a permutation of the file order with inputs first, then inouts, then
outputs. -/
theorem c6_module_stub_grouping_witness :
    rtl_all_decls
      [Port.mk ("o1") ("output") 2, Port.mk ("i1") ("input") 1,
       Port.mk ("b1") ("inout") 3, Port.mk ("i2") ("input") 4] =
      (([Port.mk ("o1") ("output") 2, Port.mk ("i1") ("input") 1,
         Port.mk ("b1") ("inout") 3, Port.mk ("i2") ("input") 4].filter
          (fun p => p.direction == ("input")))
        ++ ([Port.mk ("o1") ("output") 2, Port.mk ("i1") ("input") 1,
             Port.mk ("b1") ("inout") 3, Port.mk ("i2") ("input") 4].filter
          (fun p => p.direction == ("inout")))
        ++ ([Port.mk ("o1") ("output") 2, Port.mk ("i1") ("input") 1,
             Port.mk ("b1") ("inout") 3, Port.mk ("i2") ("input") 4].filter
          (fun p => p.direction == ("output")))).map rtl_port_decl ∧
    (([Port.mk ("o1") ("output") 2, Port.mk ("i1") ("input") 1,
       Port.mk ("b1") ("inout") 3, Port.mk ("i2") ("input") 4].filter
        (fun p => p.direction == ("input")))
      ++ ([Port.mk ("o1") ("output") 2, Port.mk ("i1") ("input") 1,
           Port.mk ("b1") ("inout") 3, Port.mk ("i2") ("input") 4].filter
        (fun p => p.direction == ("inout")))
      ++ ([Port.mk ("o1") ("output") 2, Port.mk ("i1") ("input") 1,
           Port.mk ("b1") ("inout") 3, Port.mk ("i2") ("input") 4].filter
        (fun p => p.direction == ("output")))).Perm
      [Port.mk ("o1") ("output") 2, Port.mk ("i1") ("input") 1,
       Port.mk ("b1") ("inout") 3, Port.mk ("i2") ("input") 4] :=
  c6_module_stub_grouping
    [Port.mk ("o1") ("output") 2, Port.mk ("i1") ("input") 1,
     Port.mk ("b1") ("inout") 3, Port.mk ("i2") ("input") 4]
    (by decide)

/-- C7: in both generators a width-1 port is rendered with no vector
suffix, and a port of width `n > 1` with exactly the suffix `[n-1:0]`
(the testbench variant additionally keeps its separating blank), as
part of the rendered declarations. -/
theorem c7_vector_suffix (p : Port) :
    rtl_port_decl p =
      ("  ") ++ p.direction ++ dirSpacing p.direction ++ rtlVec p.width
        ++ (" ") ++ p.name ∧
    tbDeclLine p =
      ("  ") ++ (if p.direction == ("input") then ("reg") else ("wire"))
        ++ (" ") ++ tbVec p.width ++ p.name ++ (";") ∧
    (p.width = 1 → rtlVec p.width = ("") ∧ tbVec p.width = ("")) ∧
    (1 < p.width →
      rtlVec p.width = ("[") ++ toString (p.width - 1) ++ (":0]") ∧
      tbVec p.width = ("[") ++ toString (p.width - 1) ++ (":0] ")) := by
  refine ⟨rfl, rfl, ?_, ?_⟩
  · intro hw
    rw [hw]
    exact ⟨rfl, rfl⟩
  · intro hw
    unfold rtlVec tbVec
    rw [if_pos hw, if_pos hw]
    exact ⟨rfl, rfl⟩

/-- C7 witness: width 1 renders with no suffix, width 8 as `[7:0]` in
the module stub and `[7:0] ` in the testbench. -/
theorem c7_vector_suffix_witness :
    rtlVec 1 = ("") ∧ tbVec 1 = ("") ∧
    rtlVec 8 = ("[7:0]") ∧ tbVec 8 = ("[7:0] ") := by
  have ha := (c7_vector_suffix (Port.mk ("a") ("input") 1)).2.2.1 rfl
  have hb := (c7_vector_suffix (Port.mk ("b") ("output") 8)).2.2.2 (by decide)
  exact ⟨ha.1, ha.2, hb.1, hb.2⟩

/-- A boolean-guarded emission equals the emitted text exactly when the
guard holds, and is empty exactly when it does not. -/
theorem emit_iff (b : Bool) (S : String) (hS : S ≠ ("")) :
    (((if b then S else ("")) = S) ↔ b = true) ∧
    (((if b then S else ("")) = ("")) ↔ b = false) := by
  cases b
  · refine ⟨⟨fun hh => absurd hh.symm hS, fun hh => by cases hh⟩, ?_⟩
    simp
  · refine ⟨by simp, ⟨fun hh => absurd hh hS, fun hh => by cases hh⟩⟩

/-- The guard `has_clk` holds exactly when some port is named `clk` with
direction `input`. -/
theorem tb_has_clk_iff (ports : List Port) :
    tb_has_clk ports = true ↔
      ∃ p ∈ ports, p.name = ("clk") ∧ p.direction = ("input") := by
  simp [tb_has_clk]

/-- The guard `has_rst_n` holds exactly when some port is named `rst_n` with
direction `input`. -/
theorem tb_has_rst_n_iff (ports : List Port) :
    tb_has_rst_n ports = true ↔
      ∃ p ∈ ports, p.name = ("rst_n") ∧ p.direction = ("input") := by
  simp [tb_has_rst_n]

/-- C8: the testbench emits the free-running clock process exactly when
some port is named exactly `clk` (case-sensitive) with direction
`input`, and the one-shot reset process exactly when some port is named
exactly `rst_n` with direction `input`; otherwise the corresponding
fragment is empty.  Both fragments are spliced verbatim into the
generated text. -/
theorem c8_clock_reset_detection (module_name : String) (ports : List Port) :
    (tbClkLogic ports = ("  initial begin clk = 0; forever #5 clk = ~clk; end\n") ↔
      ∃ p ∈ ports, p.name = ("clk") ∧ p.direction = ("input")) ∧
    (tbClkLogic ports = ("") ↔
      ¬∃ p ∈ ports, p.name = ("clk") ∧ p.direction = ("input")) ∧
    (tbRstLogic ports = ("  initial begin rst_n = 0; #20 rst_n = 1; end\n") ↔
      ∃ p ∈ ports, p.name = ("rst_n") ∧ p.direction = ("input")) ∧
    (tbRstLogic ports = ("") ↔
      ¬∃ p ∈ ports, p.name = ("rst_n") ∧ p.direction = ("input")) ∧
    (∃ a b, generate_tb_top module_name ports = a ++ tbClkLogic ports ++ b) ∧
    (∃ a b, generate_tb_top module_name ports = a ++ tbRstLogic ports ++ b) := by
  have hc := emit_iff (tb_has_clk ports)
    ("  initial begin clk = 0; forever #5 clk = ~clk; end\n") (by decide)
  have hr := emit_iff (tb_has_rst_n ports)
    ("  initial begin rst_n = 0; #20 rst_n = 1; end\n") (by decide)
  have hcf : (tb_has_clk ports = false) ↔
      ¬∃ p ∈ ports, p.name = ("clk") ∧ p.direction = ("input") := by
    rw [← Bool.not_eq_true]
    exact not_congr (tb_has_clk_iff ports)
  have hrf : (tb_has_rst_n ports = false) ↔
      ¬∃ p ∈ ports, p.name = ("rst_n") ∧ p.direction = ("input") := by
    rw [← Bool.not_eq_true]
    exact not_congr (tb_has_rst_n_iff ports)
  refine ⟨hc.1.trans (tb_has_clk_iff ports), hc.2.trans hcf,
    hr.1.trans (tb_has_rst_n_iff ports), hr.2.trans hrf, ?_, ?_⟩
  · refine ⟨("`default_nettype wire\n`timescale 1ns / 1ps\nmodule tb_top;\n")
      ++ String.intercalate ("\n") (ports.map tbDeclLine) ++ ("\n\n"),
      ("\n") ++ tbRstLogic ports ++ ("\n  ") ++ module_name ++ (" dut (\n")
      ++ tbPortInst ports ++ ("\n  );\n\n  initial begin\n") ++ tbStimulus ports
      ++ ("\n    $display(\"okkk\");\n    $finish;\n  end\nendmodule\n"), ?_⟩
    simp only [generate_tb_top, String.append_assoc]
  · refine ⟨("`default_nettype wire\n`timescale 1ns / 1ps\nmodule tb_top;\n")
      ++ String.intercalate ("\n") (ports.map tbDeclLine) ++ ("\n\n")
      ++ tbClkLogic ports ++ ("\n"),
      ("\n  ") ++ module_name ++ (" dut (\n")
      ++ tbPortInst ports ++ ("\n  );\n\n  initial begin\n") ++ tbStimulus ports
      ++ ("\n    $display(\"okkk\");\n    $finish;\n  end\nendmodule\n"), ?_⟩
    simp only [generate_tb_top, String.append_assoc]
